import Mathlib

/-!
Verification development for the Ragify repository (scroll-driven parallax
scene plus scripted chat widget). The scene-state engine is embedded from
`src/frontend/src/components/ParallaxScene.jsx`; the conversation store is
embedded from the `ChatContext.jsx` source included in the repository README.
JavaScript numbers are modelled as rationals; the values returned by
successive `Math.random()` calls during one render are modelled as an
explicit stream `ℕ → ℚ`; clock instants (`Date.now()`) are integers.
-/

namespace Ragify

/-! ### Scene state engine (ParallaxScene.jsx) -/

/-- `Math.min(Math.max(x, 0), 1)` as used by the scroll handler. -/
def clamp01 (x : ℚ) : ℚ := min (max x 0) 1

/-- The scroll handler: `progress = scrollHeight > 0 ? scrollTop / scrollHeight : 0`
followed by the clamp to `[0,1]`. -/
def handleScroll (scrollTop scrollHeight : ℚ) : ℚ :=
  clamp01 (if 0 < scrollHeight then scrollTop / scrollHeight else 0)

/-- `skyOpacity = 1 - (scrollProgress * 0.8)` -/
def skyOpacity (p : ℚ) : ℚ := 1 - p * (8/10)

/-- `mountainFarY = scrollProgress * 10` -/
def mountainFarY (p : ℚ) : ℚ := p * 10

/-- `mountainMidY = scrollProgress * 15` -/
def mountainMidY (p : ℚ) : ℚ := p * 15

/-- `mountainCloseY = scrollProgress * 20` -/
def mountainCloseY (p : ℚ) : ℚ := p * 20

/-- `waterfallScale = 1 + (scrollProgress * 0.2)` -/
def waterfallScale (p : ℚ) : ℚ := 1 + p * (2/10)

/-- `treesY = scrollProgress * 5` -/
def treesY (p : ℚ) : ℚ := p * 5

/-- `futuristicElementsOpacity = Math.min(0.2 + (scrollProgress * 0.8), 1)` -/
def futuristicElementsOpacity (p : ℚ) : ℚ := min (2/10 + p * (8/10)) 1

/-- `futuristicElementsScale = 0.9 + (scrollProgress * 0.2)` -/
def futuristicElementsScale (p : ℚ) : ℚ := 9/10 + p * (2/10)

/-- `moonTop = 100 - (scrollProgress * 80)` -/
def moonTop (p : ℚ) : ℚ := 100 - p * 80

/-- `moonOpacity = Math.min(scrollProgress * 2, 1)` -/
def moonOpacity (p : ℚ) : ℚ := min (p * 2) 1

/-- `starsOpacity = Math.min(scrollProgress * 1.5, 1)` -/
def starsOpacity (p : ℚ) : ℚ := min (p * (3/2)) 1

/-- Gradient returned by `getSkyGradient` when `scrollProgress < 0.5` (day). -/
def dayGradient : String :=
  "linear-gradient(to bottom, #1e40af 0%, #3b82f6 50%, #93c5fd 100%)"

/-- Gradient returned when `0.5 <= scrollProgress < 1` (dusk). -/
def duskGradient : String :=
  "linear-gradient(to bottom, #1e3a8a 0%, #1e40af 50%, #3b82f6 100%)"

/-- Gradient returned when `scrollProgress >= 1` (night). -/
def nightGradient : String :=
  "linear-gradient(to bottom, #0f172a 0%, #1e293b 50%, #334155 100%)"

/-- `getSkyGradient` from ParallaxScene.jsx: two fixed breakpoints, first
branch `scrollProgress < 0.5`, second `scrollProgress < 1`, else night. -/
def getSkyGradient (p : ℚ) : String :=
  if p < 1/2 then dayGradient
  else if p < 1 then duskGradient
  else nightGradient

/-- A star of the star-field layer: the five per-particle attributes drawn
inside the render body (`x`, `y`, `size`, `opacity`, `animationDelay`). -/
structure Particle where
  x : ℚ
  y : ℚ
  size : ℚ
  opacity : ℚ
  animationDelay : ℚ
deriving DecidableEq, Repr

/-- One star of the star field: the i-th element of
`Array.from({length: 100}).map(...)`, drawing five fresh `Math.random()`
samples from the render's random stream. -/
def mkStar (rand : ℕ → ℚ) (i : ℕ) : Particle :=
  { x := rand (5 * i) * 100
    y := rand (5 * i + 1) * 100
    size := rand (5 * i + 2) * 2 + 1
    opacity := rand (5 * i + 3) * (7/10) + 3/10
    animationDelay := rand (5 * i + 4) * 5 }

/-- The 100-star field generated inside the render body. `rand` is the
stream of values returned by the `Math.random()` calls of this render. -/
def starField (rand : ℕ → ℚ) : List Particle :=
  (List.range 100).map (mkStar rand)

/-- A glowing dot of the futuristic overlay: `x`, `y`, `size`, the blue/pink
coin flip, and the animation delay, all drawn per render. -/
structure GlowDot where
  x : ℚ
  y : ℚ
  size : ℚ
  isBlue : Bool
  animationDelay : ℚ
deriving DecidableEq, Repr

/-- One glowing dot: the i-th element of `Array.from({length: 20}).map(...)`,
drawing five fresh `Math.random()` samples. -/
def mkGlowDot (rand : ℕ → ℚ) (i : ℕ) : GlowDot :=
  { x := rand (5 * i) * 100
    y := rand (5 * i + 1) * 40 + 10
    size := rand (5 * i + 2) * 3 + 2
    isBlue := decide (rand (5 * i + 3) > 1/2)
    animationDelay := rand (5 * i + 4) * 2 }

/-- The 20 glowing dots generated inside the render body. -/
def glowDots (rand : ℕ → ℚ) : List GlowDot :=
  (List.range 20).map (mkGlowDot rand)

/-- One render of the star layer: the layer opacity derived from progress,
paired with the star set regenerated from this render's random draws. -/
def renderStarLayer (rand : ℕ → ℚ) (progress : ℚ) : ℚ × List Particle :=
  (starsOpacity progress, starField rand)

/-- One render of the glowing-dot part of the futuristic overlay. -/
def renderGlowLayer (rand : ℕ → ℚ) (progress : ℚ) : ℚ × List GlowDot :=
  (futuristicElementsOpacity progress, glowDots rand)

/-! ### Conversation store (ChatContext.jsx, included in the README) -/

/-- Message sender: the `sender` field is `"user"` or `"bot"`. -/
inductive Sender where
  | user
  | bot
deriving DecidableEq, Repr

/-- A chat message: `{id, text, sender, timestamp}`. Ids come from
`Date.now()` (or the literal `1` for greetings); timestamps are modelled as
the clock instant at creation. -/
structure Message where
  id : ℤ
  text : String
  sender : Sender
  timestamp : ℤ
deriving DecidableEq, Repr

/-- The conversation store state: `messages`, `isOpen`, `isLoading`. -/
structure ChatState where
  messages : List Message
  isOpen : Bool
  isLoading : Bool
deriving DecidableEq, Repr

/-- The canonical greeting text used by the initial state and `clearChat`. -/
def greetingText : String := "Welcome to Neo Japan. How may I assist you today?"

/-- The initial provider state: one greeting bot message with id 1,
`isOpen = false`, `isLoading = false`. `t0` is the mount instant. -/
def initialChatState (t0 : ℤ) : ChatState :=
  { messages := [{ id := 1, text := greetingText, sender := .bot, timestamp := t0 }]
    isOpen := false
    isLoading := false }

/-- JavaScript `toLowerCase` on one character (ASCII letters). -/
def jsToLowerChar (c : Char) : Char :=
  if 65 ≤ c.toNat ∧ c.toNat ≤ 90 then Char.ofNat (c.toNat + 32) else c

/-- `text.toLowerCase()` as a character list. -/
def jsToLower (s : String) : List Char := s.data.map jsToLowerChar

/-- Substring occurrence on character lists (JavaScript `String.includes`). -/
def isInfixList (pat : List Char) : List Char → Bool
  | [] => pat.isEmpty
  | c :: rest => pat.isPrefixOf (c :: rest) || isInfixList pat rest

/-- `text.toLowerCase().includes(pat)` as used by the response rules. -/
def strIncludes (s : String) (pat : String) : Bool :=
  isInfixList pat.data (jsToLower s)

/-- `text.trim()` (JavaScript): strip whitespace from both ends. -/
def jsTrim (l : List Char) : List Char :=
  ((l.dropWhile Char.isWhitespace).reverse.dropWhile Char.isWhitespace).reverse

/-- The guard `if (!text.trim()) return;`: true iff the trimmed text is empty. -/
def blank (text : String) : Bool := (jsTrim text.data).isEmpty

/-- Response of the greeting rule (`'hello'` or `'hi'`). -/
def greetingResponse : String :=
  "Hello! Welcome to Neo Japan. How can I help you explore our world?"

/-- Response of the Japan rule (`'japan'` or `'japanese'`). -/
def japanResponse : String :=
  "Japan is known for its unique blend of ancient traditions and futuristic technology. Our landscape brings this duality to life."

/-- Response of the water rule (`'waterfall'` or `'water'`). -/
def waterResponse : String :=
  "The waterfalls you see represent the flow of time, connecting the traditional past with the technological future."

/-- Response of the future/technology rule. -/
def futureResponse : String :=
  "The futuristic elements symbolize Japan\x27s innovation and technological advancements, creating harmony with natural beauty."

/-- The generic fallback response. -/
def defaultResponse : String :=
  "Thank you for your interest. As you explore our Neo Japan landscape, feel free to ask about the waterfalls, mountains, technology, or any element you see."

/-- The fixed apology appended when the simulated async step fails. -/
def apologyText : String :=
  "I apologize, but I\x27m having trouble connecting. Please try again later."

/-- The mock response generation: the ordered chain of
`text.toLowerCase().includes(...)` tests from `sendMessage`, first match
wins, ending in the generic default. -/
def getResponse (text : String) : String :=
  if strIncludes text "hello" || strIncludes text "hi" then greetingResponse
  else if strIncludes text "japan" || strIncludes text "japanese" then japanResponse
  else if strIncludes text "waterfall" || strIncludes text "water" then waterResponse
  else if strIncludes text "future" || strIncludes text "technology" then futureResponse
  else defaultResponse

/-- The user message built by `sendMessage`: `id = Date.now()` at instant `t`. -/
def mkUserMessage (text : String) (t : ℤ) : Message :=
  { id := t, text := text, sender := .user, timestamp := t }

/-- A bot message built after the delay: `id = Date.now() + 1` at instant `t`. -/
def mkBotMessage (text : String) (t : ℤ) : Message :=
  { id := t + 1, text := text, sender := .bot, timestamp := t }

/-- The synchronous prefix of `sendMessage` at clock instant `t1`: return
unchanged if the trimmed text is empty, otherwise append the user message
and set `isLoading = true`. -/
def sendMessageStart (s : ChatState) (text : String) (t1 : ℤ) : ChatState :=
  if blank text then s
  else { s with messages := s.messages ++ [mkUserMessage text t1], isLoading := true }

/-- The continuation of `sendMessage` after the simulated 1000 ms delay, at
clock instant `t2`. `ok = true` is the try branch (keyword response);
`ok = false` is the catch branch (fixed apology). Both run the finally
branch `setIsLoading(false)`. The continuation only exists for invocations
that passed the empty-text guard, hence the same guard. -/
def sendMessageFinish (s : ChatState) (text : String) (t2 : ℤ) (ok : Bool) : ChatState :=
  if blank text then s
  else
    { s with
      messages := s.messages ++ [mkBotMessage (if ok then getResponse text else apologyText) t2]
      isLoading := false }

/-- A whole `sendMessage` call, its two halves run back to back with no
interleaved event: guard, user append at `t1`, delay, bot append at `t2`. -/
def sendMessage (s : ChatState) (text : String) (t1 t2 : ℤ) (ok : Bool) : ChatState :=
  sendMessageFinish (sendMessageStart s text t1) text t2 ok

/-- `toggleChat`: flip `isOpen`. -/
def toggleChat (s : ChatState) : ChatState := { s with isOpen := !s.isOpen }

/-- `clearChat` at instant `t`: replace the transcript with the single
canonical greeting message (id 1, fresh timestamp). -/
def clearChat (s : ChatState) (t : ℤ) : ChatState :=
  { s with
    messages := [{ id := 1, text := greetingText, sender := .bot, timestamp := t }] }

/-- An atomic store event, for reasoning about interleavings of concurrent
`sendMessage` calls: each `sendMessage` contributes a `start` and, when it
passed the guard, a later `finish`. -/
inductive ChatEvent where
  | start (text : String) (t : ℤ)
  | finish (text : String) (t : ℤ) (ok : Bool)
  | toggle
  | clear (t : ℤ)
deriving DecidableEq, Repr

/-- Apply one event to the store. -/
def stepEvent (s : ChatState) : ChatEvent → ChatState
  | .start text t => sendMessageStart s text t
  | .finish text t ok => sendMessageFinish s text t ok
  | .toggle => toggleChat s
  | .clear t => clearChat s t

/-- Run a sequence of events from a state. -/
def runEvents (s : ChatState) (es : List ChatEvent) : ChatState :=
  es.foldl stepEvent s

/-- Transcript ids listed in transcript order. -/
def transcriptIds (s : ChatState) : List ℤ := s.messages.map Message.id

/-- Boolean check that a transcript's ids are strictly increasing in
transcript order (which entails pairwise uniqueness). -/
def idsStrictMono : List Message → Bool
  | [] => true
  | [_] => true
  | a :: b :: t => (decide (a.id < b.id)) && idsStrictMono (b :: t)

/-! ### Claim theorems -/

/-- Claim C1 (code defect): the particle field is NOT stable across render
invocations. Each render draws fresh `Math.random()` values inside the
render body, so two invocations with the same `progress` but different
random draws — which is what successive `Math.random()` calls produce —
yield different star sets and different glowing-dot sets. This refutes the
claim that per-particle identity is generated once at initialization and
is identical across invocations. -/
theorem c1_particles_regenerated_per_invocation :
    (renderStarLayer (fun _ => 0) (3/10)).2 ≠ (renderStarLayer (fun _ => 1/2) (3/10)).2 ∧
    (renderGlowLayer (fun _ => 0) (3/10)).2 ≠ (renderGlowLayer (fun _ => 1/2) (3/10)).2 := by
  constructor
  · intro h
    have h0 := congrArg (fun l => l[0]?) h
    simp only [renderStarLayer, starField, List.getElem?_map, List.getElem?_range] at h0
    norm_num [mkStar, Particle.mk.injEq] at h0
  · intro h
    have h0 := congrArg (fun l => l[0]?) h
    simp only [renderGlowLayer, glowDots, List.getElem?_map, List.getElem?_range] at h0
    norm_num [mkGlowDot, GlowDot.mk.injEq] at h0

/-- Claim C2: sky phase selection compares progress against the breakpoints
0.5 and 1 with ties resolving to the later phase: progress below 0.5 gives
the day gradient, in `[0.5, 1)` the dusk gradient, at or above 1 the night
gradient; in particular 0.49 is day, 0.5 and 0.99 are dusk, 1 is night,
and the three gradient descriptors are pairwise distinct fixed strings. -/
theorem c2_sky_phase_selection :
    (∀ p : ℚ, p < 1/2 → getSkyGradient p = dayGradient) ∧
    (∀ p : ℚ, 1/2 ≤ p → p < 1 → getSkyGradient p = duskGradient) ∧
    (∀ p : ℚ, 1 ≤ p → getSkyGradient p = nightGradient) ∧
    getSkyGradient (49/100) = dayGradient ∧
    getSkyGradient (1/2) = duskGradient ∧
    getSkyGradient (99/100) = duskGradient ∧
    getSkyGradient 1 = nightGradient ∧
    dayGradient ≠ duskGradient ∧ duskGradient ≠ nightGradient ∧ dayGradient ≠ nightGradient := by
  refine ⟨fun p hp => ?_, fun p hp hp1 => ?_, fun p hp => ?_,
    ?_, ?_, ?_, ?_, by decide, by decide, by decide⟩
  · rw [getSkyGradient, if_pos hp]
  · rw [getSkyGradient, if_neg (not_lt.2 hp), if_pos hp1]
  · rw [getSkyGradient, if_neg (by linarith), if_neg (not_lt.2 hp)]
  · rw [getSkyGradient, if_pos (by norm_num)]
  · rw [getSkyGradient, if_neg (by norm_num), if_pos (by norm_num)]
  · rw [getSkyGradient, if_neg (by norm_num), if_pos (by norm_num)]
  · rw [getSkyGradient, if_neg (by norm_num), if_neg (by norm_num)]

/-- Witness for C2: the dusk branch applied at the concrete progress 3/4. -/
theorem c2_sky_phase_selection_witness : getSkyGradient (3/4) = duskGradient :=
  c2_sky_phase_selection.2.1 (3/4) (by norm_num) (by norm_num)

/-- Claim C3: each mountain layer offset is monotonically non-decreasing in
progress over `[0,1]`; at equal progress the far offset is at most the mid
offset, which is at most the close offset; and for positive progress the
far layer moves strictly less than both nearer layers. -/
theorem c3_parallax_depth_ordering :
    (∀ p1 p2 : ℚ, 0 ≤ p1 → p1 < p2 → p2 ≤ 1 →
        mountainFarY p1 ≤ mountainFarY p2 ∧
        mountainMidY p1 ≤ mountainMidY p2 ∧
        mountainCloseY p1 ≤ mountainCloseY p2) ∧
    (∀ p : ℚ, 0 ≤ p → p ≤ 1 →
        mountainFarY p ≤ mountainMidY p ∧ mountainMidY p ≤ mountainCloseY p) ∧
    (∀ p : ℚ, 0 < p →
        mountainFarY p < mountainMidY p ∧ mountainFarY p < mountainCloseY p) := by
  unfold mountainFarY mountainMidY mountainCloseY
  refine ⟨fun p1 p2 h0 hlt h1 => ⟨by nlinarith, by nlinarith, by nlinarith⟩,
    fun p h0 h1 => ⟨by nlinarith, by nlinarith⟩,
    fun p hp => ⟨by nlinarith, by nlinarith⟩⟩

/-- Witness for C3: the monotonicity part applied at progress 1/4 and 3/4. -/
theorem c3_parallax_depth_ordering_witness :
    mountainFarY (1/4) ≤ mountainFarY (3/4) ∧
    mountainMidY (1/4) ≤ mountainMidY (3/4) ∧
    mountainCloseY (1/4) ≤ mountainCloseY (3/4) :=
  c3_parallax_depth_ordering.1 (1/4) (3/4) (by norm_num) (by norm_num) (by norm_num)

/-- Claim C4: for progress in `[0,1]`, the sky, moon and star-field
opacities lie in `[0,1]`, the tech-overlay opacity lies in `[0.2, 1]`
(hence also in `[0,1]`), and the water scale is at least 1. -/
theorem c4_derived_field_ranges (p : ℚ) (h0 : 0 ≤ p) (h1 : p ≤ 1) :
    (0 ≤ skyOpacity p ∧ skyOpacity p ≤ 1) ∧
    (0 ≤ moonOpacity p ∧ moonOpacity p ≤ 1) ∧
    (0 ≤ starsOpacity p ∧ starsOpacity p ≤ 1) ∧
    (2/10 ≤ futuristicElementsOpacity p ∧ futuristicElementsOpacity p ≤ 1) ∧
    1 ≤ waterfallScale p := by
  unfold skyOpacity moonOpacity starsOpacity futuristicElementsOpacity waterfallScale
  refine ⟨⟨by nlinarith, by nlinarith⟩,
    ⟨le_min (by nlinarith) (by norm_num), min_le_right _ _⟩,
    ⟨le_min (by nlinarith) (by norm_num), min_le_right _ _⟩,
    ⟨le_min (by nlinarith) (by norm_num), min_le_right _ _⟩,
    by nlinarith⟩

/-- Witness for C4: the range invariant at the concrete progress 1/2. -/
theorem c4_derived_field_ranges_witness :
    (0 ≤ skyOpacity (1/2) ∧ skyOpacity (1/2) ≤ 1) ∧
    (0 ≤ moonOpacity (1/2) ∧ moonOpacity (1/2) ≤ 1) ∧
    (0 ≤ starsOpacity (1/2) ∧ starsOpacity (1/2) ≤ 1) ∧
    (2/10 ≤ futuristicElementsOpacity (1/2) ∧ futuristicElementsOpacity (1/2) ≤ 1) ∧
    1 ≤ waterfallScale (1/2) :=
  c4_derived_field_ranges (1/2) (by norm_num) (by norm_num)

/-- Claim C5: scroll normalization is total and defensive. For every raw
`scrollTop` and every scrollable extent `scrollHeight` (including zero and
negative), the stored progress lies in `[0,1]`, and a non-positive extent
yields progress 0 (the division is guarded, so it never runs on a
non-positive denominator). -/
theorem c5_scroll_normalization_total (scrollTop scrollHeight : ℚ) :
    0 ≤ handleScroll scrollTop scrollHeight ∧
    handleScroll scrollTop scrollHeight ≤ 1 ∧
    (scrollHeight ≤ 0 → handleScroll scrollTop scrollHeight = 0) := by
  refine ⟨le_min (le_max_right _ _) zero_le_one, min_le_right _ _, fun h => ?_⟩
  rw [handleScroll, if_neg (not_lt.2 h)]
  simp [clamp01]

/-- Witness for C5: a zero extent with a positive raw offset yields 0. -/
theorem c5_scroll_normalization_total_witness : handleScroll 5 0 = 0 :=
  (c5_scroll_normalization_total 5 0).2.2 (by norm_num)

/-- Claim C6: for text whose trim is non-empty, `sendMessage` first appends
exactly one user message and sets `isLoading`; after the simulated delay
(success path) it appends exactly one bot message chosen by `getResponse`
— the ordered first-match keyword policy — and clears `isLoading`.
Moreover "Hello there" selects the greeting rule, "Tell me about Japan"
selects the Japan rule, and the Japan response is distinct from both the
greeting and the fallback responses. -/
theorem c6_submit_nonempty (s : ChatState) (text : String) (t1 t2 : ℤ)
    (h : blank text = false) :
    (sendMessageStart s text t1).messages = s.messages ++ [mkUserMessage text t1] ∧
    (sendMessageStart s text t1).isLoading = true ∧
    (sendMessage s text t1 t2 true).messages
      = s.messages ++ [mkUserMessage text t1, mkBotMessage (getResponse text) t2] ∧
    (sendMessage s text t1 t2 true).isLoading = false ∧
    getResponse "Hello there" = greetingResponse ∧
    getResponse "Tell me about Japan" = japanResponse ∧
    japanResponse ≠ greetingResponse ∧
    japanResponse ≠ defaultResponse := by
  refine ⟨?_, ?_, ?_, ?_, by decide, by decide, by decide, by decide⟩ <;>
    simp [sendMessage, sendMessageStart, sendMessageFinish, h]

/-- Witness for C6: the loading flag is cleared after the full submit of
"Hello there" on the initial store. -/
theorem c6_submit_nonempty_witness :
    (sendMessage (initialChatState 0) "Hello there" 5 1005 true).isLoading = false :=
  (c6_submit_nonempty (initialChatState 0) "Hello there" 5 1005 (by decide)).2.2.2.1

/-- Claim C7: submitting text whose trim is empty is a complete no-op: the
store state — transcript, `isOpen`, `isLoading` — is unchanged, both after
the synchronous prefix and after the whole call, for either outcome of the
simulated step. -/
theorem c7_blank_submit_noop (s : ChatState) (text : String) (t1 t2 : ℤ) (ok : Bool)
    (h : blank text = true) :
    sendMessage s text t1 t2 ok = s ∧ sendMessageStart s text t1 = s := by
  constructor <;> simp [sendMessage, sendMessageStart, sendMessageFinish, h]

/-- Witness for C7: submitting three spaces leaves the initial store as is. -/
theorem c7_blank_submit_noop_witness :
    sendMessage (initialChatState 0) "   " 1 2 true = initialChatState 0 :=
  (c7_blank_submit_noop (initialChatState 0) "   " 1 2 true (by decide)).1

/-- Claim C8: if the simulated step fails, `sendMessage` appends exactly one
fixed apology bot message; and on every path that began the delay —
success or failure — `isLoading` is false at completion. The embedding is
a total function, matching the contract that no error escapes the call. -/
theorem c8_failure_recovery (s : ChatState) (text : String) (t1 t2 : ℤ)
    (h : blank text = false) :
    (sendMessage s text t1 t2 false).messages
      = s.messages ++ [mkUserMessage text t1, mkBotMessage apologyText t2] ∧
    (∀ ok : Bool, (sendMessage s text t1 t2 ok).isLoading = false) := by
  constructor
  · simp [sendMessage, sendMessageStart, sendMessageFinish, h]
  · intro ok
    simp [sendMessage, sendMessageStart, sendMessageFinish, h]

/-- Witness for C8: the failing submit of "Hello there" on the initial
store appends the user message and the apology. -/
theorem c8_failure_recovery_witness :
    (sendMessage (initialChatState 0) "Hello there" 5 1005 false).messages
      = (initialChatState 0).messages
          ++ [mkUserMessage "Hello there" 5, mkBotMessage apologyText 1005] :=
  (c8_failure_recovery (initialChatState 0) "Hello there" 5 1005 (by decide)).1

/-- Claim C9: after `clearChat`, whatever the prior transcript, the
transcript has length exactly 1, its single element is the canonical
greeting bot message, and `isOpen` is unchanged. -/
theorem c9_clearChat_reset (s : ChatState) (t : ℤ) :
    (clearChat s t).messages.length = 1 ∧
    (clearChat s t).messages
      = [{ id := 1, text := greetingText, sender := .bot, timestamp := t }] ∧
    (clearChat s t).isOpen = s.isOpen := by
  refine ⟨rfl, rfl, rfl⟩

/-- Claim C10 (code defect): message ids are NOT pairwise unique under every
interleaving. Ids come from the clock (`Date.now()` for the user message),
so two submits at the same clock millisecond 1000 on the fresh store yield
a transcript with ids `[1, 1000, 1000]`: duplicated, and not strictly
increasing in transcript order. -/
theorem c10_duplicate_ids_same_millisecond :
    transcriptIds (runEvents (initialChatState 0)
      [.start "Hello there" 1000, .start "What is this place" 1000]) = [1, 1000, 1000] ∧
    idsStrictMono (runEvents (initialChatState 0)
      [.start "Hello there" 1000, .start "What is this place" 1000]).messages = false ∧
    ¬ (transcriptIds (runEvents (initialChatState 0)
      [.start "Hello there" 1000, .start "What is this place" 1000])).Nodup := by
  refine ⟨by decide, by decide, by decide⟩

end Ragify
